import Mathlib

/-
Verification of the intent-driven governance hook system: intent loading,
scope (glob) matching, the pre-action gate and scope-guard pipeline, the
declare-intent handshake, and the post-action trace-ledger append.
JavaScript strings are modelled as lists of characters; the filesystem,
YAML parser, git and crypto collaborators are modelled as explicit inputs.
-/

/-- A JavaScript string, modelled as its list of characters. -/
abbrev JSString := List Char

/-- JS s.endsWith(t) over the char-list model. -/
def jsEndsWith (s t : JSString) : Bool := t.isSuffixOf s

/-- JS s.startsWith(t) over the char-list model. -/
def jsStartsWith (s t : JSString) : Bool := t.isPrefixOf s

/-- JS falsy test for a nullable string: null and the empty string are falsy. -/
def jsFalsyOptStr : Option JSString → Bool
  | none => true
  | some s => s.isEmpty

/-- Embeds the normalization step of isPathInScope (intentLoader.ts lines 49 and 52):
replace every backslash with a forward slash. -/
def normalizeSlashes (s : JSString) : JSString :=
  s.map fun c => if c = '\\' then '/' else c

/-- Embeds the per-pattern predicate inside isPathInScope (intentLoader.ts lines 51-69):
normalize the pattern, then three cases in order — recursive glob (pattern ending in
slash-star-star), direct-child glob (pattern ending in slash-star), exact equality. -/
def scopePatternMatches (normalized pattern : JSString) : Bool :=
  let normalizedPattern := normalizeSlashes pattern
  if jsEndsWith normalizedPattern "/**".data then
    let pre := normalizedPattern.take (normalizedPattern.length - 3)
    normalized == pre || jsStartsWith normalized (pre ++ "/".data)
  else if jsEndsWith normalizedPattern "/*".data then
    let pre := normalizedPattern.take (normalizedPattern.length - 2)
    let rest := normalized.drop (pre.length + 1)
    jsStartsWith normalized (pre ++ "/".data) && !(rest.contains '/')
  else normalized == normalizedPattern

/-- Embeds isPathInScope (intentLoader.ts lines 47-70): normalize the file path, then
test whether some pattern of the owned scope matches it (Array.prototype.some). -/
def isPathInScope (filePath : JSString) (ownedScope : List JSString) : Bool :=
  let normalized := normalizeSlashes filePath
  ownedScope.any fun pattern => scopePatternMatches normalized pattern

/-- JS array.join with a newline separator, over the char-list model. -/
def joinNL : List JSString → JSString
  | [] => []
  | [s] => s
  | s :: rest => s ++ '\n' :: joinNL rest

/-- Embeds ActiveIntent (types.ts lines 60-67): one intent as parsed from
active_intents.yaml. The optional constraints and acceptance_criteria fields
default to the empty list. -/
structure ActiveIntent where
  id : JSString
  name : JSString
  status : JSString
  owned_scope : List JSString
  constraints : List JSString := []
  acceptance_criteria : List JSString := []
deriving DecidableEq

/-- The state of the active_intents.yaml source consulted by the loader: the file may be
absent (read throws), malformed (YAML parse throws), parse to a document without the
active_intents key, or parse to a list of intents. -/
inductive IntentSource where
  | absent : IntentSource
  | malformed : IntentSource
  | parsedEmpty : IntentSource
  | wellFormed : List ActiveIntent → IntentSource

/-- Models the fallible read-and-parse step of loadActiveIntents (intentLoader.ts
lines 21-22): fs.readFile followed by parseYaml. The absent and malformed cases throw;
parsedEmpty models a document whose active_intents key is missing. -/
def readActiveIntentsFile : IntentSource → Except JSString (Option (List ActiveIntent))
  | IntentSource.absent => Except.error "ENOENT".data
  | IntentSource.malformed => Except.error "YAMLParseError".data
  | IntentSource.parsedEmpty => Except.ok none
  | IntentSource.wellFormed intents => Except.ok (some intents)

/-- Embeds loadActiveIntents (intentLoader.ts lines 18-28): a try/catch around the
read-and-parse returning the empty list on any thrown error, and the nullish
fallback on the active_intents key. -/
def loadActiveIntents (src : IntentSource) : List ActiveIntent :=
  match readActiveIntentsFile src with
  | Except.error _ => []
  | Except.ok parsed => parsed.getD []

/-- Embeds findIntentById (intentLoader.ts lines 34-37): first intent whose id equals
the requested id, none when absent. -/
def findIntentById (src : IntentSource) (intentId : JSString) : Option ActiveIntent :=
  (loadActiveIntents src).find? fun i => i.id == intentId

/-- Embeds MUTATING_TOOLS (types.ts lines 7-16). -/
def MUTATING_TOOLS : List JSString :=
  ["write_to_file".data, "apply_diff".data, "edit".data, "search_and_replace".data,
   "search_replace".data, "edit_file".data, "apply_patch".data, "execute_command".data]

/-- Embeds FILE_WRITE_TOOLS (scopeGuard in intentGate.ts source file, lines 53-61):
the tools that write to a specific file path. -/
def FILE_WRITE_TOOLS : List JSString :=
  ["write_to_file".data, "apply_diff".data, "edit".data, "search_and_replace".data,
   "search_replace".data, "edit_file".data, "apply_patch".data]

/-- Embeds HookContext (types.ts lines 28-34). toolParams is represented by its single
consulted entry, the path parameter; the cwd field is replaced by passing the intent
source explicitly to the hooks that read it. -/
structure HookContext where
  taskId : JSString
  toolName : JSString
  toolParamsPath : Option JSString
  activeIntentId : Option JSString

/-- Embeds HookResult (types.ts lines 40-43). -/
structure HookResult where
  blocked : Bool
  reason : Option JSString := none
deriving DecidableEq

/-- Literal chunks of the intent-gate denial message (intentGate.ts lines 29-32). -/
def gateMsgA : JSString := "[Intent Gate] BLOCKED: You attempted to call \x27".data

/-- Continuation of the intent-gate denial message after the tool name. -/
def gateMsgB : JSString := "\x27 without a declared intent.\n".data

/-- Opening of the guidance sentence of the intent-gate denial message. -/
def gateMsgC : JSString := "You MUST first call \x27".data

/-- The tool the guidance of the intent-gate denial message names. -/
def gateMsgD : JSString := "select_active_intent".data

/-- Remainder of the guidance sentence of the intent-gate denial message. -/
def gateMsgE : JSString :=
  "\x27 with a valid intent ID from .orchestration/active_intents.yaml before modifying any files.\n".data

/-- Example line of the intent-gate denial message. -/
def gateMsgF : JSString := "Example: select_active_intent(\x7b intent_id: \"INT-001\" \x7d)".data

/-- The full intent-gate denial message (intentGate.ts lines 29-32), with the tool name
interpolated. -/
def noIntentReason (toolName : JSString) : JSString :=
  gateMsgA ++ toolName ++ gateMsgB ++ gateMsgC ++ gateMsgD ++ gateMsgE ++ gateMsgF

/-- Embeds runIntentGate (intentGate.ts lines 18-37): non-mutating tools always pass;
a mutating tool with a falsy active intent id is blocked with the denial message. -/
def runIntentGate (ctx : HookContext) : HookResult :=
  if MUTATING_TOOLS.contains ctx.toolName = false then { blocked := false }
  else if jsFalsyOptStr ctx.activeIntentId = true then
    { blocked := true, reason := some (noIntentReason ctx.toolName) }
  else { blocked := false }

/-- The scope-guard denial message for an intent id that no longer resolves
(scopeGuard lines 88-93), with the active intent id interpolated. -/
def intentNotFoundReason (activeIntentId : JSString) : JSString :=
  "[Scope Guard] BLOCKED: Active intent \x27".data ++ activeIntentId ++
    "\x27 not found in .orchestration/active_intents.yaml. The intent may have been removed or renamed. Call select_active_intent again with a valid ID.".data

/-- Literal chunks of the scope-violation denial message (scopeGuard lines 104-112). -/
def scopeMsg1 : JSString := "[Scope Guard] BLOCKED: Scope Violation.\nIntent \x27".data

/-- Chunk between the intent id and the intent name in the scope-violation message. -/
def scopeMsg2 : JSString := "\x27 (".data

/-- Chunk between the intent name and the target path in the scope-violation message. -/
def scopeMsg3 : JSString := ") is NOT authorized to edit: ".data

/-- Header of the authorized-scope enumeration in the scope-violation message. -/
def scopeMsg4 : JSString := "\nAuthorized scope:\n".data

/-- Remediation guidance of the scope-violation message. -/
def scopeMsg5 : JSString :=
  "\nTo modify this file, either:\n  1. Switch to a different intent that owns this file, or\n  2. Request a scope expansion for intent ".data

/-- Trailing full stop of the scope-violation message. -/
def scopeMsg6 : JSString := ".".data

/-- The full scope-violation denial message (scopeGuard lines 104-112), enumerating every
pattern of the owned scope, each prefixed with two spaces and a dash, joined by newlines. -/
def scopeViolationReason (activeIntentId iname targetPath : JSString)
    (ownedScope : List JSString) : JSString :=
  scopeMsg1 ++ activeIntentId ++ scopeMsg2 ++ iname ++ scopeMsg3 ++ targetPath ++ scopeMsg4 ++
    joinNL (ownedScope.map fun s => "  - ".data ++ s) ++
    scopeMsg5 ++ activeIntentId ++ scopeMsg6

/-- The tail of runScopeGuard (scopeGuard lines 85-116) after the intent lookup: block
with the intent-not-found denial when the lookup failed, allow when the owned scope is
missing or empty, and otherwise block exactly when the target path is out of scope,
with the scope-violation denial. -/
def scopeGuardDecision (activeId targetPath : JSString) : Option ActiveIntent → HookResult
  | none => { blocked := true, reason := some (intentNotFoundReason activeId) }
  | some intent =>
      if intent.owned_scope.isEmpty = true then { blocked := false }
      else if isPathInScope targetPath intent.owned_scope = false then
        { blocked := true,
          reason := some (scopeViolationReason activeId intent.name targetPath
            intent.owned_scope) }
      else { blocked := false }

/-- Embeds runScopeGuard (scopeGuard lines 67-117): enforce the owned scope on
file-writing tools only, skipping when no intent is active or no target path is given;
re-resolve the intent from the store by the active id and decide from the freshly
loaded intent. -/
def runScopeGuard (src : IntentSource) (ctx : HookContext) : HookResult :=
  if FILE_WRITE_TOOLS.contains ctx.toolName = false then { blocked := false }
  else if jsFalsyOptStr ctx.activeIntentId = true then { blocked := false }
  else if (ctx.toolParamsPath.getD []).isEmpty = true then { blocked := false }
  else
    scopeGuardDecision (ctx.activeIntentId.getD []) (ctx.toolParamsPath.getD [])
      (findIntentById src (ctx.activeIntentId.getD []))

/-- Embeds IntentState (types.ts lines 48-55): the per-task activation snapshot stored by
the hook engine when select_active_intent succeeds. -/
structure IntentState where
  intentId : JSString
  intentName : JSString
  ownedScope : List JSString
  constraints : List JSString
  acceptanceCriteria : List JSString
  activatedAt : JSString
deriving DecidableEq

/-- The observable outcome of SelectActiveIntentTool.execute: the three error results
pushed for a missing parameter, an unresolved id, and a terminal status, or a successful
activation carrying the stored snapshot. -/
inductive SelectIntentOutcome where
  | errorMissingId : SelectIntentOutcome
  | errorNotFound : JSString → SelectIntentOutcome
  | errorTerminal : JSString → JSString → SelectIntentOutcome
  | activated : IntentState → SelectIntentOutcome
deriving DecidableEq

/-- Embeds SelectActiveIntentTool.execute (SelectActiveIntentTool source, lines 34-74):
require the id parameter, resolve the intent, reject status COMPLETED or CANCELLED as
terminal, and otherwise register the activation snapshot with the current timestamp. -/
def selectActiveIntent (src : IntentSource) (intentId : JSString) (now : JSString) :
    SelectIntentOutcome :=
  if intentId.isEmpty = true then SelectIntentOutcome.errorMissingId
  else
    match findIntentById src intentId with
    | none => SelectIntentOutcome.errorNotFound intentId
    | some intent =>
        if (intent.status == "COMPLETED".data || intent.status == "CANCELLED".data) = true then
          SelectIntentOutcome.errorTerminal intentId intent.status
        else
          SelectIntentOutcome.activated
            { intentId := intent.id, intentName := intent.name,
              ownedScope := intent.owned_scope, constraints := intent.constraints,
              acceptanceCriteria := intent.acceptance_criteria, activatedAt := now }

/-- Embeds MutationClass (types.ts line 79). -/
inductive MutationClass where
  | AST_REFACTOR : MutationClass
  | INTENT_EVOLUTION : MutationClass
  | BUG_FIX : MutationClass
  | UNKNOWN : MutationClass
deriving DecidableEq

/-- Embeds computeContentHash (contentHash.ts lines 15-18): prefix the hex digest produced
by the crypto collaborator with the algorithm tag. The digest function itself is an
external collaborator passed in explicitly. -/
def computeContentHash (hashHex : JSString → JSString) (content : JSString) : JSString :=
  "sha256:".data ++ hashHex content

/-- Embeds countLines (contentHash.ts lines 23-25): the number of newline-delimited
segments of the content. -/
def countLines (content : JSString) : Nat :=
  (List.splitOn '\n' content).length

/-- Embeds classifyMutation (traceLedger.ts lines 52-57). -/
def classifyMutation (filePath : JSString) (isNewFile : Bool) : MutationClass :=
  if isNewFile = true then MutationClass.INTENT_EVOLUTION
  else MutationClass.AST_REFACTOR

/-- Embeds getGitRevision (traceLedger.ts lines 35-43): the trimmed short revision from
the git collaborator, with unknown as the fallback on any failure. -/
def getGitRevision (gitResult : Except JSString JSString) : JSString :=
  match gitResult with
  | Except.ok rev => rev
  | Except.error _ => "unknown".data

/-- One content range of a trace record (types.ts lines 96-100). -/
structure TraceRange where
  start_line : Nat
  end_line : Nat
  content_hash : JSString
deriving DecidableEq

/-- One file entry of a trace record (types.ts lines 89-105); the mutationClass field
embeds the JSON field named mutation_class. -/
structure TraceFileEntry where
  relative_path : JSString
  contributor_entity_type : JSString
  contributor_model_identifier : JSString
  ranges : List TraceRange
  mutationClass : MutationClass
  related : List (JSString × JSString)
deriving DecidableEq

/-- Embeds TraceRecord (types.ts lines 84-106); the vcs_revision_id field embeds the
nested vcs.revision_id JSON field. -/
structure TraceRecord where
  id : JSString
  timestamp : JSString
  intent_id : Option JSString
  vcs_revision_id : JSString
  files : List TraceFileEntry
deriving DecidableEq

/-- Embeds TraceLedgerContext (traceLedger.ts lines 21-29), with cwd dropped in favour of
explicit collaborator inputs. -/
structure TraceLedgerContext where
  taskId : JSString
  intentId : Option JSString
  filePath : JSString
  content : JSString
  modelId : JSString
  mutationClass : Option MutationClass
deriving DecidableEq

/-- The environment of one appendTraceRecord call: the outcomes of the directory
creation, the existence probe on the target file at call time, the git lookup and the
ledger append, together with the uuid and timestamp collaborators and the crypto digest
function. -/
structure LedgerEnv where
  mkdirOk : Bool
  accessOk : Bool
  gitResult : Except JSString JSString
  hashHex : JSString → JSString
  uuid : JSString
  now : JSString
  appendOk : Bool

/-- The observable state appendTraceRecord acts on: the ledger contents and the error
log written by console.error. -/
structure LedgerState where
  ledger : List TraceRecord
  log : List JSString
deriving DecidableEq

/-- The record built by appendTraceRecord (traceLedger.ts lines 72-107): existence probe
(whose own failure only marks the file as new), hashing, line counting, classification
with caller override, revision lookup and record construction — all the pure steps of
the outer try block. -/
def buildTraceRecord (env : LedgerEnv) (ctx : TraceLedgerContext) : TraceRecord :=
  let isNewFile := !env.accessOk
  let contentHash := computeContentHash env.hashHex ctx.content
  let lineCount := countLines ctx.content
  let mutationClass := ctx.mutationClass.getD (classifyMutation ctx.filePath isNewFile)
  let gitRevision := getGitRevision env.gitResult
  { id := env.uuid, timestamp := env.now, intent_id := ctx.intentId,
    vcs_revision_id := gitRevision,
    files := [{ relative_path := ctx.filePath,
                contributor_entity_type := "AI".data,
                contributor_model_identifier := ctx.modelId,
                ranges := [{ start_line := 1, end_line := lineCount,
                             content_hash := contentHash }],
                mutationClass := mutationClass,
                related := if jsFalsyOptStr ctx.intentId = true then []
                           else [("specification".data, ctx.intentId.getD [])] }] }

/-- The outer try block of appendTraceRecord (traceLedger.ts lines 64-110): the
directory creation and the ledger append are the fallible steps; a thrown step
surfaces as Except.error. -/
def appendTraceRecordInner (env : LedgerEnv) (ctx : TraceLedgerContext) :
    Except JSString TraceRecord :=
  if env.mkdirOk = false then Except.error "mkdir failed".data
  else if env.appendOk = false then Except.error "append failed".data
  else Except.ok (buildTraceRecord env ctx)

/-- Embeds appendTraceRecord (traceLedger.ts lines 63-115): the catch clause logs the
failure and returns normally, so a failed call leaves the ledger unchanged and a
successful call appends exactly one record. -/
def appendTraceRecord (env : LedgerEnv) (ctx : TraceLedgerContext) (st : LedgerState) :
    LedgerState :=
  match appendTraceRecordInner env ctx with
  | Except.error e =>
      { st with log := st.log ++ ["[TraceLedger] Failed to append trace record: ".data ++ e] }
  | Except.ok r => { st with ledger := st.ledger ++ [r] }

/-- Concrete environment for the claim C8 witness: the directory creation fails. -/
def c8env : LedgerEnv :=
  { mkdirOk := false, accessOk := true, gitResult := Except.ok "abc1234".data,
    hashHex := fun s => s, uuid := "uuid-1".data, now := "2026-02-18T00:00:00Z".data,
    appendOk := true }

/-- Concrete call context for the claim C8 witness. -/
def c8ctx : TraceLedgerContext :=
  { taskId := "task-1".data, intentId := some "INT-001".data,
    filePath := "src/auth/login.ts".data, content := "hello".data,
    modelId := "model-x".data, mutationClass := none }

/-- Environment of the claim C9 failing input: every collaborator succeeds, and the
existence probe succeeds because the post-hook runs only after the write completed. -/
def c9env : LedgerEnv :=
  { mkdirOk := true, accessOk := true, gitResult := Except.ok "abc1234".data,
    hashHex := fun s => s, uuid := "uuid-2".data, now := "2026-02-18T00:00:00Z".data,
    appendOk := true }

/-- Call context of the claim C9 failing input: the write that created docs/readme.md,
a file that did not exist before the operation, with no caller override. -/
def c9ctx : TraceLedgerContext :=
  { taskId := "task-1".data, intentId := some "INT-001".data,
    filePath := "docs/readme.md".data, content := "hello".data,
    modelId := "model-x".data, mutationClass := none }

/-- The claim C6 failing input: an intent whose status is ABANDONED, a terminal status
per the repository architecture notes and per the error message of the tool itself. -/
def abandonedIntent : ActiveIntent :=
  { id := "INT-009".data, name := "Old migration".data, status := "ABANDONED".data,
    owned_scope := ["src/auth/**".data] }

/-- Concrete intent for the scope-guard witness: in progress, scoped to src/auth. -/
def demoIntent : ActiveIntent :=
  { id := "INT-001".data, name := "Auth hardening".data, status := "IN_PROGRESS".data,
    owned_scope := ["src/auth/**".data] }

/-- Concrete intent with an empty owned scope, for the unrestricted-scope witness. -/
def unrestrictedIntent : ActiveIntent :=
  { id := "INT-777".data, name := "Exploration".data, status := "PENDING".data,
    owned_scope := [] }

/-- Normalization leaves a string without backslashes unchanged. -/
theorem normalizeSlashes_eq_self : ∀ {s : JSString}, '\\' ∉ s → normalizeSlashes s = s := by
  intro s
  induction s with
  | nil => intro _; rfl
  | cons c t ih =>
    intro h
    simp only [List.mem_cons, not_or] at h
    simp only [normalizeSlashes, List.map_cons]
    rw [if_neg fun hc => h.1 hc.symm]
    exact congrArg (c :: ·) (ih h.2)

/-- A string obtained by appending t ends with t. -/
theorem jsEndsWith_append (a t : JSString) : jsEndsWith (a ++ t) t = true := by
  simp only [jsEndsWith]
  exact List.isSuffixOf_iff_suffix.mpr (List.suffix_append a t)

/-- A direct-child glob pattern never ends with the recursive glob marker. -/
theorem not_endsWith_recursive_glob (x : JSString) :
    jsEndsWith (x ++ "/*".data) "/**".data = false := by
  simp only [jsEndsWith]
  rw [Bool.eq_false_iff]
  intro hsuf
  obtain ⟨t, ht⟩ := List.isSuffixOf_iff_suffix.mp hsuf
  have ht2 : (t ++ [ '/' ]) ++ [ '*', '*' ] = x ++ [ '/', '*' ] := by
    rw [List.append_assoc]
    exact ht
  have h3 := (List.append_inj' ht2 rfl).2
  exact absurd h3 (by decide)

/-- Taking the length of the left part of an append returns the left part. -/
theorem take_append_of_length {a : JSString} (t : JSString) {n : Nat} (h : a.length = n) :
    (a ++ t).take n = a := by
  subst h
  exact List.take_left a t

/-- Scope matching against a single pattern is that pattern matching the normalized path. -/
theorem isPathInScope_singleton (p pat : JSString) :
    isPathInScope p [pat] = scopePatternMatches (normalizeSlashes p) pat := by
  simp [isPathInScope]

/-- Bool-level membership test read back as non-membership. -/
theorem contains_eq_false_iff (l : JSString) (c : Char) : l.contains c = false ↔ c ∉ l := by
  constructor
  · intro h hc
    rw [show l.contains c = List.elem c l from rfl, List.elem_iff.mpr hc] at h
    exact absurd h (by decide)
  · intro h
    cases he : List.elem c l with
    | false => exact he ▸ rfl
    | true => exact absurd (List.elem_iff.mp he) h

/-- A nonempty list is not isEmpty. -/
theorem isEmpty_false_of_ne_nil {l : JSString} (h : l ≠ []) : l.isEmpty = false := by
  cases l with
  | nil => exact absurd rfl h
  | cons a t => rfl

/-- Claim C3: for all paths p and prefixes x with separators already normalized to
forward slashes (no backslash occurs), the pure scope matcher applied to p and the
single recursive-glob pattern x ++ slash-star-star returns true exactly when p equals
x or p starts with x followed by a slash. -/
theorem scope_recursive_glob_correct (p x : JSString) (hp : '\\' ∉ p) (hx : '\\' ∉ x) :
    isPathInScope p [x ++ "/**".data] = true ↔ p = x ∨ (x ++ "/".data) <+: p := by
  have hnp : normalizeSlashes p = p := normalizeSlashes_eq_self hp
  have hnpat : normalizeSlashes (x ++ "/**".data) = x ++ "/**".data := by
    calc normalizeSlashes (x ++ "/**".data)
        = normalizeSlashes x ++ normalizeSlashes "/**".data := List.map_append _ _ _
      _ = x ++ "/**".data := by
          rw [normalizeSlashes_eq_self hx, normalizeSlashes_eq_self (by decide)]
  have hends : jsEndsWith (x ++ "/**".data) "/**".data = true := jsEndsWith_append x _
  have htake : (x ++ "/**".data).take ((x ++ "/**".data).length - 3) = x := by
    apply take_append_of_length
    simp [List.length_append]
  rw [isPathInScope_singleton, hnp]
  simp only [scopePatternMatches, hnpat, hends, if_true, htake]
  simp [jsStartsWith, List.isPrefixOf_iff_prefix, beq_iff_eq]

/-- Witness for claim C3 at a concrete path and prefix. -/
theorem scope_recursive_glob_correct_witness :
    isPathInScope "src/auth/login.ts".data ["src/auth".data ++ "/**".data] = true :=
  (scope_recursive_glob_correct "src/auth/login.ts".data "src/auth".data (by decide)
    (by decide)).mpr (Or.inr (by decide))

/-- Claim C4: for all paths p and prefixes x with separators already normalized to
forward slashes (no backslash occurs), the pure scope matcher applied to p and the
single direct-child pattern x ++ slash-star returns true exactly when p starts with x
followed by a slash and the remainder of p after that prefix contains no further
separator. -/
theorem scope_direct_child_correct (p x : JSString) (hp : '\\' ∉ p) (hx : '\\' ∉ x) :
    isPathInScope p [x ++ "/*".data] = true ↔
      (x ++ "/".data) <+: p ∧ '/' ∉ p.drop (x.length + 1) := by
  have hnp : normalizeSlashes p = p := normalizeSlashes_eq_self hp
  have hnpat : normalizeSlashes (x ++ "/*".data) = x ++ "/*".data := by
    calc normalizeSlashes (x ++ "/*".data)
        = normalizeSlashes x ++ normalizeSlashes "/*".data := List.map_append _ _ _
      _ = x ++ "/*".data := by
          rw [normalizeSlashes_eq_self hx, normalizeSlashes_eq_self (by decide)]
  have hnot : jsEndsWith (x ++ "/*".data) "/**".data = false := not_endsWith_recursive_glob x
  have hends : jsEndsWith (x ++ "/*".data) "/*".data = true := jsEndsWith_append x _
  have htake : (x ++ "/*".data).take ((x ++ "/*".data).length - 2) = x := by
    apply take_append_of_length
    simp [List.length_append]
  rw [isPathInScope_singleton, hnp]
  simp only [scopePatternMatches, hnpat, hnot, hends, if_true, htake]
  simp only [Bool.false_eq_true, if_false, htake]
  simp [jsStartsWith, List.isPrefixOf_iff_prefix, Bool.and_eq_true, Bool.not_eq_true',
    contains_eq_false_iff]

/-- Witness for claim C4 at a concrete path and prefix, covering both the direct-child
acceptance and the nested-descendant rejection of the spec example. -/
theorem scope_direct_child_correct_witness :
    isPathInScope "src/mw/jwt.ts".data ["src/mw".data ++ "/*".data] = true ∧
    isPathInScope "src/mw/sub/jwt.ts".data ["src/mw".data ++ "/*".data] = false := by
  constructor
  · exact (scope_direct_child_correct "src/mw/jwt.ts".data "src/mw".data (by decide)
      (by decide)).mpr (by decide)
  · rw [Bool.eq_false_iff]
    intro hmatch
    have h := (scope_direct_child_correct "src/mw/sub/jwt.ts".data "src/mw".data (by decide)
      (by decide)).mp hmatch
    exact absurd h.2 (by decide)

/-- Claim C5 counterexample: the pure scope matcher applied to an empty pattern list
returns false, not true — the some combinator over an empty array is false. -/
theorem isPathInScope_empty_false : isPathInScope "src/auth/login.ts".data [] = false := rfl

/-- Every element of a list is an infix of the newline join of that list. -/
theorem mem_infix_joinNL : ∀ (l : List JSString) (s : JSString), s ∈ l → s <:+: joinNL l := by
  intro l
  induction l with
  | nil => intro s h; exact absurd h (List.not_mem_nil s)
  | cons a t ih =>
    intro s h
    rcases List.mem_cons.mp h with rfl | hmem
    · cases t with
      | nil => exact ⟨[], [], by simp [joinNL]⟩
      | cons b t2 => exact ⟨[], '\n' :: joinNL (b :: t2), by simp [joinNL]⟩
    · cases t with
      | nil => exact absurd hmem (List.not_mem_nil s)
      | cons b t2 =>
        obtain ⟨u, v, huv⟩ := ih s hmem
        refine ⟨a ++ '\n' :: u, v, ?_⟩
        show (a ++ '\n' :: u) ++ s ++ v = a ++ '\n' :: joinNL (b :: t2)
        rw [← huv]
        simp [List.append_assoc]

/-- Every owned-scope pattern appears, dash-prefixed, inside the scope-violation
denial message. -/
theorem scope_patterns_enumerated (pid iname tpath : JSString) (scope : List JSString)
    (pat : JSString) (h : pat ∈ scope) :
    ("  - ".data ++ pat) <:+: scopeViolationReason pid iname tpath scope := by
  have h1 : ("  - ".data ++ pat) ∈ scope.map (fun s => "  - ".data ++ s) :=
    List.mem_map_of_mem _ h
  obtain ⟨u, v, huv⟩ := mem_infix_joinNL _ _ h1
  refine ⟨scopeMsg1 ++ pid ++ scopeMsg2 ++ iname ++ scopeMsg3 ++ tpath ++ scopeMsg4 ++ u,
    v ++ scopeMsg5 ++ pid ++ scopeMsg6, ?_⟩
  rw [scopeViolationReason, ← huv]
  simp [List.append_assoc]

/-- Claim C1: the intent gate lets every non-mutating tool through unchanged, and blocks
any mutating tool called with no active intent id, returning the no-active-intent denial
whose guidance names select_active_intent as the required first call. -/
theorem intent_gate_spec (ctx : HookContext) :
    (MUTATING_TOOLS.contains ctx.toolName = false →
      runIntentGate ctx = { blocked := false, reason := none }) ∧
    (MUTATING_TOOLS.contains ctx.toolName = true → ctx.activeIntentId = none →
      runIntentGate ctx =
          { blocked := true, reason := some (noIntentReason ctx.toolName) } ∧
        gateMsgD <:+: noIntentReason ctx.toolName) := by
  constructor
  · intro h
    unfold runIntentGate
    rw [if_pos h]
  · intro htool hnone
    have hcond : ¬ (MUTATING_TOOLS.contains ctx.toolName = false) := by
      rw [htool]
      decide
    refine ⟨?_, ?_⟩
    · unfold runIntentGate
      rw [if_neg hcond, hnone]
      rfl
    · refine ⟨gateMsgA ++ ctx.toolName ++ gateMsgB ++ gateMsgC, gateMsgE ++ gateMsgF, ?_⟩
      simp [noIntentReason, List.append_assoc]

/-- Witness for claim C1: a concrete mutating call with no declared intent is blocked. -/
theorem intent_gate_spec_witness :
    runIntentGate
        { taskId := [], toolName := "edit".data, toolParamsPath := none,
          activeIntentId := none } =
      { blocked := true, reason := some (noIntentReason "edit".data) } :=
  ((intent_gate_spec _).2 (by decide) rfl).1

/-- Claim C2: on a file-writing tool with a non-empty active intent id and a non-empty
target path, the scope guard re-resolves the intent from the store; an unresolved id
blocks with the intent-not-found denial; a resolved intent with an empty scope, or one
whose scope matches the path, passes; a resolved non-matching scope blocks with the
scope-violation denial, whose text enumerates every authorized scope pattern. -/
theorem scope_guard_spec (src : IntentSource) (ctx : HookContext) (pid ppath : JSString)
    (htool : FILE_WRITE_TOOLS.contains ctx.toolName = true)
    (hid : ctx.activeIntentId = some pid) (hidne : pid ≠ [])
    (hpath : ctx.toolParamsPath = some ppath) (hpne : ppath ≠ []) :
    (findIntentById src pid = none →
      runScopeGuard src ctx =
        { blocked := true, reason := some (intentNotFoundReason pid) }) ∧
    (∀ intent : ActiveIntent, findIntentById src pid = some intent →
      ((intent.owned_scope = [] ∨ isPathInScope ppath intent.owned_scope = true) →
        runScopeGuard src ctx = { blocked := false, reason := none }) ∧
      (intent.owned_scope ≠ [] → isPathInScope ppath intent.owned_scope = false →
        runScopeGuard src ctx =
            { blocked := true,
              reason := some
                (scopeViolationReason pid intent.name ppath intent.owned_scope) } ∧
          ∀ pat ∈ intent.owned_scope,
            ("  - ".data ++ pat) <:+:
              scopeViolationReason pid intent.name ppath intent.owned_scope)) := by
  have hcond1 : ¬ (FILE_WRITE_TOOLS.contains ctx.toolName = false) := by
    rw [htool]
    decide
  have hcond2 : ¬ (jsFalsyOptStr ctx.activeIntentId = true) := by
    rw [hid]
    show ¬ (pid.isEmpty = true)
    rw [isEmpty_false_of_ne_nil hidne]
    decide
  have hgetid : ctx.activeIntentId.getD [] = pid := by rw [hid]; rfl
  have hgetpath : ctx.toolParamsPath.getD [] = ppath := by rw [hpath]; rfl
  have hcond3 : ¬ ((ctx.toolParamsPath.getD []).isEmpty = true) := by
    rw [hgetpath, isEmpty_false_of_ne_nil hpne]
    decide
  have hguard : runScopeGuard src ctx =
      scopeGuardDecision pid ppath (findIntentById src pid) := by
    unfold runScopeGuard
    rw [if_neg hcond1, if_neg hcond2, if_neg hcond3, hgetid, hgetpath]
  constructor
  · intro hfind
    rw [hguard, hfind]
    rfl
  · intro intent hfind
    constructor
    · intro hallow
      rw [hguard, hfind]
      simp only [scopeGuardDecision]
      rcases hallow with hempty | hmatch
      · rw [hempty]
        rfl
      · rcases Bool.eq_false_or_eq_true intent.owned_scope.isEmpty with hse | hse
        · rw [if_pos hse]
        · rw [if_neg (by rw [hse]; decide), if_neg (by rw [hmatch]; decide)]
    · intro hne hviol
      have hse : intent.owned_scope.isEmpty = false := by
        cases hsc : intent.owned_scope with
        | nil => exact absurd hsc hne
        | cons a t => rfl
      refine ⟨?_, ?_⟩
      · rw [hguard, hfind]
        simp only [scopeGuardDecision]
        rw [if_neg (by rw [hse]; decide), if_pos hviol]
      · intro pat hpat
        exact scope_patterns_enumerated pid intent.name ppath intent.owned_scope pat hpat

/-- Witness for claim C2: a concrete write outside the declared scope is blocked. -/
theorem scope_guard_spec_witness :
    (runScopeGuard (IntentSource.wellFormed [demoIntent])
        { taskId := [], toolName := "write_to_file".data,
          toolParamsPath := some "src/billing/invoice.ts".data,
          activeIntentId := some "INT-001".data }).blocked = true := by
  have h := scope_guard_spec (IntentSource.wellFormed [demoIntent])
    { taskId := [], toolName := "write_to_file".data,
      toolParamsPath := some "src/billing/invoice.ts".data,
      activeIntentId := some "INT-001".data }
    "INT-001".data "src/billing/invoice.ts".data (by decide) rfl (by decide) rfl (by decide)
  have h2 := (h.2 demoIntent rfl).2 (by decide) (by decide)
  rw [h2.1]

/-- Claim C5 (amended): the pure scope matcher returns false on the empty pattern list;
the unrestricted-scope policy lives in the scope guard, which returns not-blocked for a
resolved intent whose owned scope is empty before ever consulting the matcher, so any
target path is allowed. -/
theorem empty_scope_unrestricted (src : IntentSource) (ctx : HookContext)
    (pid : JSString) (intent : ActiveIntent) (hid : ctx.activeIntentId = some pid)
    (hfind : findIntentById src pid = some intent) (hscope : intent.owned_scope = []) :
    (runScopeGuard src ctx).blocked = false ∧ ∀ q : JSString, isPathInScope q [] = false := by
  refine ⟨?_, fun q => rfl⟩
  unfold runScopeGuard
  split
  · rfl
  · split
    · rfl
    · split
      · rfl
      · rw [hid]
        show (scopeGuardDecision ((some pid).getD []) _
          (findIntentById src ((some pid).getD []))).blocked = false
        rw [show (some pid).getD [] = pid from rfl, hfind]
        simp only [scopeGuardDecision]
        rw [hscope]
        rfl

/-- Witness for the amended claim C5: a concrete write on a declared intent with an
empty owned scope is allowed. -/
theorem empty_scope_unrestricted_witness :
    (runScopeGuard (IntentSource.wellFormed [unrestrictedIntent])
        { taskId := [], toolName := "write_to_file".data,
          toolParamsPath := some "anything/at/all.ts".data,
          activeIntentId := some "INT-777".data }).blocked = false :=
  (empty_scope_unrestricted (IntentSource.wellFormed [unrestrictedIntent])
    { taskId := [], toolName := "write_to_file".data,
      toolParamsPath := some "anything/at/all.ts".data,
      activeIntentId := some "INT-777".data }
    "INT-777".data unrestrictedIntent rfl rfl rfl).1

/-- Claim C6: evaluation of the embedded select_active_intent at the failing input.
The intent INT-009 has the terminal status ABANDONED, yet the tool activates it and
stores a session snapshot, because the code only rejects the statuses COMPLETED and
CANCELLED even though its own error message says only IN_PROGRESS or PENDING intents
can be selected and the repository status vocabulary has ABANDONED, not CANCELLED. -/
theorem select_abandoned_intent_activates :
    selectActiveIntent (IntentSource.wellFormed [abandonedIntent]) "INT-009".data "t0".data
      = SelectIntentOutcome.activated
          { intentId := "INT-009".data, intentName := "Old migration".data,
            ownedScope := ["src/auth/**".data], constraints := [],
            acceptanceCriteria := [], activatedAt := "t0".data } := by
  rfl

/-- Claim C7: when the intent source is absent or malformed, the underlying read-parse
step throws, yet loadActiveIntents returns the empty list rather than propagating, and
every findIntentById lookup on such a source returns none rather than throwing. -/
theorem load_fails_open (intentId : JSString) :
    (∃ e, readActiveIntentsFile IntentSource.absent = Except.error e) ∧
    (∃ e, readActiveIntentsFile IntentSource.malformed = Except.error e) ∧
    loadActiveIntents IntentSource.absent = [] ∧
    loadActiveIntents IntentSource.malformed = [] ∧
    findIntentById IntentSource.absent intentId = none ∧
    findIntentById IntentSource.malformed intentId = none :=
  ⟨⟨"ENOENT".data, rfl⟩, ⟨"YAMLParseError".data, rfl⟩, rfl, rfl, rfl, rfl⟩

/-- Claim C8: a failure of the directory creation or of the ledger append is caught:
the call returns normally with the ledger unchanged and the failure logged; when both
fallible steps succeed (whatever the git outcome), exactly the built record is
appended and nothing is logged. -/
theorem trace_ledger_swallows_failures (env : LedgerEnv) (ctx : TraceLedgerContext)
    (st : LedgerState) :
    ((env.mkdirOk = false ∨ env.appendOk = false) →
      (appendTraceRecord env ctx st).ledger = st.ledger ∧
      ∃ e, (appendTraceRecord env ctx st).log =
        st.log ++ ["[TraceLedger] Failed to append trace record: ".data ++ e]) ∧
    (env.mkdirOk = true → env.appendOk = true →
      appendTraceRecordInner env ctx = Except.ok (buildTraceRecord env ctx) ∧
      (appendTraceRecord env ctx st).ledger = st.ledger ++ [buildTraceRecord env ctx] ∧
      (appendTraceRecord env ctx st).log = st.log) := by
  constructor
  · intro hfail
    rcases Bool.eq_false_or_eq_true env.mkdirOk with hm | hm
    · rw [hm] at hfail
      have ha : env.appendOk = false := by
        rcases hfail with hmf | haf
        · exact absurd hmf (by decide)
        · exact haf
      have hinner : appendTraceRecordInner env ctx = Except.error "append failed".data := by
        unfold appendTraceRecordInner
        rw [if_neg (by rw [hm]; decide), if_pos ha]
      constructor
      · unfold appendTraceRecord
        rw [hinner]
      · refine ⟨"append failed".data, ?_⟩
        unfold appendTraceRecord
        rw [hinner]
    · have hinner : appendTraceRecordInner env ctx = Except.error "mkdir failed".data := by
        unfold appendTraceRecordInner
        rw [if_pos hm]
      constructor
      · unfold appendTraceRecord
        rw [hinner]
      · refine ⟨"mkdir failed".data, ?_⟩
        unfold appendTraceRecord
        rw [hinner]
  · intro hm ha
    have hinner : appendTraceRecordInner env ctx = Except.ok (buildTraceRecord env ctx) := by
      unfold appendTraceRecordInner
      rw [if_neg (by rw [hm]; decide), if_neg (by rw [ha]; decide)]
    refine ⟨hinner, ?_, ?_⟩
    · unfold appendTraceRecord
      rw [hinner]
    · unfold appendTraceRecord
      rw [hinner]

/-- Witness for claim C8: a concrete call whose directory creation fails leaves the
ledger empty. -/
theorem trace_ledger_swallows_failures_witness :
    (appendTraceRecord c8env c8ctx { ledger := [], log := [] }).ledger = [] :=
  ((trace_ledger_swallows_failures c8env c8ctx
    { ledger := [], log := [] }).1 (Or.inl rfl)).1

/-- Claim C9: evaluation of the embedded trace-ledger record builder at the failing
input. The write created docs/readme.md, a file that did not exist before the
operation, but the post-hook existence probe runs after the completed write and
succeeds, so the record is classified AST_REFACTOR; the classifier itself would
return INTENT_EVOLUTION had the new-file flag been observed before the write, as the
specification requires. -/
theorem new_file_classified_ast_refactor :
    (appendTraceRecordInner c9env c9ctx).map (fun r => r.files.map fun f => f.mutationClass)
        = Except.ok [MutationClass.AST_REFACTOR] ∧
      classifyMutation "docs/readme.md".data true = MutationClass.INTENT_EVOLUTION :=
  ⟨rfl, rfl⟩

/-- Claim C10: execute_command is in the mutating set, so the intent gate applies to
it, yet it is absent from the file-write set, so the scope guard returns not-blocked
on it whatever the store, the active intent and its owned scope are. -/
theorem execute_command_not_scope_checked :
    MUTATING_TOOLS.contains "execute_command".data = true ∧
    FILE_WRITE_TOOLS.contains "execute_command".data = false ∧
    ∀ (src : IntentSource) (ctx : HookContext), ctx.toolName = "execute_command".data →
      runScopeGuard src ctx = { blocked := false, reason := none } := by
  refine ⟨by decide, by decide, ?_⟩
  intro src ctx h
  unfold runScopeGuard
  rw [h, if_pos (by decide)]

/-- Witness for claim C10: a concrete execute_command call with an active intent and a
restrictive scope passes the scope guard. -/
theorem execute_command_not_scope_checked_witness :
    runScopeGuard (IntentSource.wellFormed [demoIntent])
        { taskId := [], toolName := "execute_command".data,
          toolParamsPath := some "src/billing/invoice.ts".data,
          activeIntentId := some "INT-001".data } =
      { blocked := false, reason := none } :=
  execute_command_not_scope_checked.2.2 (IntentSource.wellFormed [demoIntent])
    { taskId := [], toolName := "execute_command".data,
      toolParamsPath := some "src/billing/invoice.ts".data,
      activeIntentId := some "INT-001".data } rfl
